import Mathlib

/-!
Verification of the template validator (`scripts/validate_templates.py`).

The validator is embedded shallowly: Python values are modelled by `PyVal`,
the mutable `TemplateValidator` state (the two accumulating finding lists) by
`VState`, and a Python exception (`TypeError` / `AttributeError` raised by an
operation applied to a value of the wrong type) by `PyErr`.  Each embedded
function threads the state explicitly and returns the state reached at the
point of a raise, mirroring the mutation-then-raise behaviour of the source.
-/

namespace ValidateTemplates

/-- A Python exception kind, as raised by the operations the script uses on
badly typed values (`str.startswith` on a non-string raises `AttributeError`
via attribute lookup; `re` functions and the `in` operator raise `TypeError`). -/
inductive PyErr where
  | typeError
  | attributeError
deriving DecidableEq, Repr

/-- A loosely typed Python value, covering the shapes the validator handles:
`None`, booleans, integers, strings, lists and string-keyed dicts. -/
inductive PyVal where
  | none
  | bool (b : Bool)
  | int (n : Int)
  | str (s : String)
  | list (elems : List PyVal)
  | dict (entries : List (String × PyVal))

/-- Validator state: the two accumulating finding lists
(`self.errors`, `self.warnings`). -/
structure VState where
  errors : List String
  warnings : List String
deriving DecidableEq, Repr

/-- The fresh state built by `TemplateValidator.__init__`. -/
def initState : VState := ⟨[], []⟩

/-- Dict lookup (first entry with the given key). -/
def pyLookup (d : List (String × PyVal)) (k : String) : Option PyVal :=
  match d.find? (fun p => p.1 == k) with
  | some p => some p.2
  | Option.none => Option.none

/-- Python truthiness of a value (`if not templates:`). -/
def pyTruthy : PyVal → Bool
  | .none => false
  | .bool b => b
  | .int n => n != 0
  | .str s => !s.data.isEmpty
  | .list l => !l.isEmpty
  | .dict d => !d.isEmpty

/-- Python iteration (`for x in v`): lists yield elements, strings yield
one-character strings, dicts yield their keys; other values raise `TypeError`. -/
def pyIter : PyVal → Except PyErr (List PyVal)
  | .list l => .ok l
  | .str s => .ok (s.data.map (fun c => .str (String.singleton c)))
  | .dict d => .ok (d.map (fun p => .str p.1))
  | _ => .error .typeError

/-- Python equality of a value against a string (`==` between a `str` and
another value is `False` unless both are equal strings). -/
def elemEqStr (k : String) : PyVal → Bool
  | .str s => s == k
  | _ => false

/-- The apostrophe character, used in the validator's f-string messages. -/
def sq : String := String.singleton (Char.ofNat 39)

/-- Python `str(v)` for scalars; containers use their `repr`. -/
def commaJoin : List String → String
  | [] => ""
  | [s] => s
  | s :: rest => s ++ ", " ++ commaJoin rest

-- Nesting depth of a value, used as fuel for `pyRepr`.
mutual
def pyDepth : PyVal → Nat
  | .none => 1
  | .bool _ => 1
  | .int _ => 1
  | .str _ => 1
  | .list l => 1 + pyDepthL l
  | .dict d => 1 + pyDepthD d
def pyDepthL : List PyVal → Nat
  | [] => 0
  | v :: vs => Nat.max (pyDepth v) (pyDepthL vs)
def pyDepthD : List (String × PyVal) → Nat
  | [] => 0
  | (_, v) :: ps => Nat.max (pyDepth v) (pyDepthD ps)
end

/-- Fuel-indexed Python `repr` of a value (the fuel is only a termination
device; `pyRepr` supplies enough for any actual value). -/
def pyReprF : Nat → PyVal → String
  | _, .none => "None"
  | _, .bool true => "True"
  | _, .bool false => "False"
  | _, .int n => toString n
  | _, .str s => sq ++ s ++ sq
  | Nat.succ fuel, .list l => "[" ++ commaJoin (l.map (pyReprF fuel)) ++ "]"
  | Nat.succ fuel, .dict d =>
      "\x7b" ++ commaJoin (d.map (fun p => sq ++ p.1 ++ sq ++ ": " ++ pyReprF fuel p.2)) ++ "\x7d"
  | 0, .list _ => ""
  | 0, .dict _ => ""

/-- Python `repr(v)`. -/
def pyRepr (v : PyVal) : String := pyReprF (pyDepth v) v

/-- Python `str(v)`, as used when a value is interpolated into an f-string. -/
def pyStrOf : PyVal → String
  | .str s => s
  | v => pyRepr v

/-- Membership test `"GITHUB_TOKEN" in v`: substring test on strings, element
test on lists, key test on dicts; raises `TypeError` otherwise. -/
def containsSub (p s : List Char) : Bool :=
  (List.range (s.length + 1)).any (fun i => p.isPrefixOf (s.drop i))

def pyContainsStr (v : PyVal) (k : String) : Except PyErr Bool :=
  match v with
  | .str s => .ok (containsSub k.data s.data)
  | .list l => .ok (l.any (elemEqStr k))
  | .dict d => .ok (d.any (fun p => p.1 == k))
  | _ => .error .typeError

/-- Characters stripped by Python `str.strip()` (the ASCII whitespace set). -/
def isPySpace (c : Char) : Bool :=
  c = ' ' || c = '\t' || c = '\n' || c = '\x0b' || c = '\x0c' || c = '\r'

/-- Holds when `s.strip()` is non-empty, i.e. `s` has a non-whitespace character. -/
def stripNonempty (s : List Char) : Bool := s.any (fun c => !(isPySpace c))

/-- A character allowed by the name-format character class `[a-z0-9-]`. -/
def isNameChar (c : Char) : Bool :=
  (Char.toNat c ≥ 97 && Char.toNat c ≤ 122) ||
  (Char.toNat c ≥ 48 && Char.toNat c ≤ 57) || c = '-'

/-- Success of `re.match(r'^[a-z0-9-]+$', s)`: a non-empty run of allowed
characters spans the string, or spans everything before one final newline
(Python's `$` also matches just before a trailing newline). -/
def reNameFmt (s : List Char) : Bool :=
  (!s.isEmpty && s.all isNameChar) ||
  (s.getLast? == some '\n' && !s.dropLast.isEmpty && s.dropLast.all isNameChar)

/-! ## Secret pattern registry (`_check_hardcoded_secrets`) -/

/-- Character classes appearing in the registry's regular expressions. -/
inductive CredClass where
  | alnum
  | alnumU
  | upperNum
deriving DecidableEq, Repr

def isAlnumChar (c : Char) : Bool :=
  (Char.toNat c ≥ 65 && Char.toNat c ≤ 90) ||
  (Char.toNat c ≥ 97 && Char.toNat c ≤ 122) ||
  (Char.toNat c ≥ 48 && Char.toNat c ≤ 57)

def inCred : CredClass → Char → Bool
  | .alnum, c => isAlnumChar c
  | .alnumU, c => isAlnumChar c || c = '_'
  | .upperNum, c =>
      (Char.toNat c ≥ 48 && Char.toNat c ≤ 57) ||
      (Char.toNat c ≥ 65 && Char.toNat c ≤ 90)

/-- One registry entry: a fixed leading literal, then exactly `len` characters
of class `cls` (the shape of each regex in `secret_patterns`). -/
structure SecretRule where
  pre : String
  cls : CredClass
  len : Nat
  label : String
deriving DecidableEq, Repr

/-- Success of `re.search` for a registry rule: some position starts with the literal
followed by `len` characters of the class. -/
def reSearch (r : SecretRule) (s : List Char) : Bool :=
  (List.range (s.length + 1)).any (fun i =>
    let t := s.drop i
    r.pre.data.isPrefixOf t &&
      (decide (r.len ≤ (t.drop r.pre.data.length).length) &&
        ((t.drop r.pre.data.length).take r.len).all (inCred r.cls)))

/-- The fixed registry of `(pattern, label)` pairs from the source. -/
def secret_patterns : List SecretRule :=
  [⟨"ghp_", .alnum, 36, "GitHub Personal Access Token"⟩,
   ⟨"gho_", .alnum, 36, "GitHub OAuth Token"⟩,
   ⟨"github_pat_", .alnumU, 82, "GitHub Fine-Grained Token"⟩,
   ⟨"AKIA", .upperNum, 16, "AWS Access Key"⟩,
   ⟨"sk-", .alnum, 48, "OpenAI API Key"⟩]

def secretMsg (n label : String) : String :=
  n ++ (": Found hardcoded " ++ label ++ " in script!")

/-- The scan of `_check_hardcoded_secrets`: appends one error per registry rule whose
pattern is found in the script, in registry order. -/
def check_hardcoded_secrets (acc : List String) (s : List Char) (n : String) : List String :=
  secret_patterns.foldl
    (fun es r => if reSearch r s then es ++ [secretMsg n r.label] else es) acc

/-! ## Script heuristics (`_validate_script`) -/

def upperOrUnderscore (c : Char) : Bool :=
  (Char.toNat c ≥ 65 && Char.toNat c ≤ 90) || c = '_'

/-- One attempt of the regex `[^"](\$[A-Z_]+)[^"]` at the head of `l`
(Python `re` semantics: greedy `+` with backtracking for the final `[^"]`).
Returns the captured group and the rest of the text after the full match. -/
def matchFrom (l : List Char) : Option (List Char × List Char) :=
  match l with
  | c0 :: c1 :: t =>
    if c0 = '"' then Option.none
    else if c1 = '$' then
      if (t.takeWhile upperOrUnderscore).isEmpty then Option.none
      else
        match t.drop (t.takeWhile upperOrUnderscore).length with
        | c2 :: rest =>
          if c2 ≠ '"' then some ('$' :: t.takeWhile upperOrUnderscore, rest)
          else if (t.takeWhile upperOrUnderscore).length ≥ 2 then
            some ('$' :: (t.takeWhile upperOrUnderscore).dropLast,
              t.drop (t.takeWhile upperOrUnderscore).length)
          else Option.none
        | [] =>
          if (t.takeWhile upperOrUnderscore).length ≥ 2 then
            some ('$' :: (t.takeWhile upperOrUnderscore).dropLast, [])
          else Option.none
    else Option.none
  | _ => Option.none

/-- The scan of `re.findall(r'[^"](\$[A-Z_]+)[^"]', s)`: left-to-right non-overlapping
scan; on failure advance one character, on success continue after the full
match.  The fuel argument only bounds recursion; `findallUnquoted` supplies
the list's length, which the scan can never exceed. -/
def findallAux : Nat → List Char → List (List Char)
  | 0, _ => []
  | _, [] => []
  | Nat.succ fuel, l@(_ :: rest) =>
    match matchFrom l with
    | some (g, rem) => g :: findallAux fuel rem
    | Option.none => findallAux fuel rest

def findallUnquoted (s : List Char) : List (List Char) := findallAux s.length s

/-- Python `repr` of the list `unquoted_vars[:3]` of captured strings. -/
def reprStrList (l : List (List Char)) : String :=
  "[" ++ commaJoin (l.map (fun g => sq ++ String.mk g ++ sq)) ++ "]"

/-- The unquoted-variables warning of `_validate_script` (empty when the
regex finds nothing). -/
def unquotedWarn (s : List Char) (n stype : String) : List String :=
  match findallUnquoted s with
  | [] => []
  | vs => [n ++ ": " ++ stype ++ " has unquoted variables: " ++ reprStrList (vs.take 3)]

/-- Warnings of `_validate_script` on a string script: the three style warnings, in
source order (shebang, `set -e`, unquoted variables). -/
def validate_script (s : List Char) (n stype : String) : List String :=
  (if stype == "setupScript" && !("#!/bin/bash".data.isPrefixOf s) then
      [n ++ ": " ++ stype ++ " should start with #!/bin/bash shebang"]
    else []) ++
  (if !(containsSub "set -e".data s) then
      [n ++ ": " ++ stype ++ " should include " ++ sq ++ "set -e" ++ sq ++ " for error handling"]
    else []) ++
  unquotedWarn s n stype

/-! ## Field schema checks (`validate_template`) -/

def required_fields : List String :=
  ["name", "description", "repoTypes", "setupScript",
   "maintenanceScript", "requiredSecrets", "environmentVariables", "instructions"]

def missingMsg (n f : String) : String :=
  n ++ ": Missing required field " ++ sq ++ f ++ sq

def ghMsg (n : String) : String :=
  n ++ ": GitHub templates must require GITHUB_TOKEN secret"

def nameFormatErr (nm : List Char) (n : String) : List String :=
  if reNameFmt nm then []
  else [n ++ ": Invalid name format (use lowercase, numbers, hyphens only)"]

def repoTypesErr (v : PyVal) (n : String) : List String :=
  match v with
  | .list l => if l.isEmpty then [n ++ ": repoTypes must be a non-empty list"] else []
  | _ => [n ++ ": repoTypes must be a non-empty list"]

def setupScriptErr (v : PyVal) (n : String) : List String :=
  match v with
  | .str s => if stripNonempty s.data then [] else [n ++ ": setupScript must be a non-empty string"]
  | _ => [n ++ ": setupScript must be a non-empty string"]

def maintenanceErr (v : PyVal) (n : String) : List String :=
  match v with
  | .str _ => []
  | _ => [n ++ ": maintenanceScript must be a string"]

def requiredSecretsErr (v : PyVal) (n : String) : List String :=
  match v with
  | .list _ => []
  | _ => [n ++ ": requiredSecrets must be a list"]

def envVarsErr (v : PyVal) (n : String) : List String :=
  match v with
  | .dict _ => []
  | _ => [n ++ ": environmentVariables must be an object"]

def instructionsErr (v : PyVal) (n : String) : List String :=
  match v with
  | .str s => if stripNonempty s.data then [] else [n ++ ": instructions must be a non-empty string"]
  | _ => [n ++ ": instructions must be a non-empty string"]

/-- Outcome of one `validate_template` body: it raised, it took the
missing-field early `return False`, or it reached the final
`return len(self.errors) == 0`. -/
inductive TResult where
  | raised (e : PyErr)
  | earlyFalse
  | completed
deriving DecidableEq, Repr

/-- The findings appended by one `validate_template` call (errors, then
warnings) and how the call ended, as a function of the record and the
formatted name used in messages.  Mirrors the source's statement order:
presence short-circuit; name format; `repoTypes`; `setupScript`;
`maintenanceScript`; `requiredSecrets`; `environmentVariables`; script
heuristics; hardcoded-secret scan; `instructions`; GitHub rule.  A raise
happens at `re.match` when `name` is not a string, at `startswith` when
`setupScript` is not a string, and at `in` when the GitHub rule tests a
`requiredSecrets` that supports no membership. -/
def templateRun (t : List (String × PyVal)) (n : String) :
    List String × List String × TResult :=
  match required_fields.find? (fun f => (pyLookup t f).isNone) with
  | some f => ([missingMsg n f], [], .earlyFalse)
  | Option.none =>
    match (pyLookup t "name").getD .none with
    | .str nm =>
      let es1 := nameFormatErr nm.data n ++
        repoTypesErr ((pyLookup t "repoTypes").getD .none) n ++
        setupScriptErr ((pyLookup t "setupScript").getD .none) n ++
        maintenanceErr ((pyLookup t "maintenanceScript").getD .none) n ++
        requiredSecretsErr ((pyLookup t "requiredSecrets").getD .none) n ++
        envVarsErr ((pyLookup t "environmentVariables").getD .none) n
      match (pyLookup t "setupScript").getD .none with
      | .str sc =>
        let ws := validate_script sc.data n "setupScript"
        let es2 := check_hardcoded_secrets [] sc.data n
        let es3 := instructionsErr ((pyLookup t "instructions").getD .none) n
        if "github-".data.isPrefixOf nm.data then
          match pyContainsStr ((pyLookup t "requiredSecrets").getD .none) "GITHUB_TOKEN" with
          | .error e => (es1 ++ es2 ++ es3, ws, .raised e)
          | .ok mem =>
            (es1 ++ es2 ++ es3 ++ (if mem then [] else [ghMsg n]), ws, .completed)
        else (es1 ++ es2 ++ es3, ws, .completed)
      | _ => (es1, [], .raised .attributeError)
    | _ => ([], [], .raised .typeError)

/-- Embedding of `TemplateValidator.validate_template`: appends the call's findings to the
session state; returns `False` from the missing-field path, and
`len(self.errors) == 0` — over the whole session list — otherwise. -/
def validate_template (st : VState) (t : List (String × PyVal)) (nameArg : PyVal) :
    Except PyErr Bool × VState :=
  match templateRun t (pyStrOf nameArg) with
  | (es, ws, .raised e) => (.error e, ⟨st.errors ++ es, st.warnings ++ ws⟩)
  | (es, ws, .earlyFalse) => (.ok false, ⟨st.errors ++ es, st.warnings ++ ws⟩)
  | (es, ws, .completed) =>
      (.ok (st.errors ++ es).isEmpty, ⟨st.errors ++ es, st.warnings ++ ws⟩)

/-! ## Collection level (`validate_all_templates`, `print_results`) -/

/-- The `for template in templates` loop of `validate_all_templates`:
`template.get('name', 'unknown')` (an `AttributeError` on non-dict records),
then `validate_template`, AND-ing the per-record results. -/
def validateLoop (st : VState) (av : Bool) : List PyVal → Except PyErr Bool × VState
  | [] => (.ok av, st)
  | x :: rest =>
    match x with
    | .dict d =>
      match validate_template st d ((pyLookup d "name").getD (.str "unknown")) with
      | (.ok b, st1) => validateLoop st1 (av && b) rest
      | (.error e, st1) => (.error e, st1)
    | _ => (.error .attributeError, st)

/-- Embedding of `TemplateValidator.validate_all_templates` on the parsed JSON envelope:
`templates_json.get('templates', [])`, the empty/falsy short-circuit with its
single top-level error, then the validation loop. -/
def validate_all_templates (st : VState) (j : List (String × PyVal)) :
    Except PyErr Bool × VState :=
  let templates := (pyLookup j "templates").getD (.list [])
  if pyTruthy templates then
    match pyIter templates with
    | .error e => (.error e, st)
    | .ok ts => validateLoop st true ts
  else
    (.ok false, ⟨st.errors ++ ["No templates found in templates array"], st.warnings⟩)

/-- A full validation session: a fresh validator, then `validate_all_templates`. -/
def runSession (j : List (String × PyVal)) : Except PyErr Bool × VState :=
  validate_all_templates initState j

/-- The exit code computed by `TemplateValidator.print_results`:
1 when the error list is non-empty, 0 otherwise. -/
def print_results_exit (st : VState) : Nat :=
  if st.errors.isEmpty then 0 else 1

/-! ## Concrete records used in counterexamples and witnesses -/

def goodScript : String := "#!/bin/bash\nset -e\necho ok"

/-- A fully well-formed record: every check passes and no finding is produced. -/
def goodTemplate : List (String × PyVal) :=
  [("name", .str "good-template"),
   ("description", .str "A template"),
   ("repoTypes", .list [.str "node"]),
   ("setupScript", .str goodScript),
   ("maintenanceScript", .str ""),
   ("requiredSecrets", .list []),
   ("environmentVariables", .dict []),
   ("instructions", .str "Use it")]

/-! ## Helper lemmas -/

lemma data_append (s t : String) : (s ++ t).data = s.data ++ t.data := by
  cases s; cases t; rfl

lemma append_right_ne (n : String) {a b : String} (h : a ≠ b) : n ++ a ≠ n ++ b := by
  intro he
  apply h
  have hd := congrArg String.data he
  rw [data_append, data_append] at hd
  have h2 := List.append_cancel_left hd
  exact congrArg String.mk h2

/-- The state after `validate_template` always extends the incoming state by
exactly the findings of the call's `templateRun`. -/
lemma validate_template_state (st : VState) (t : List (String × PyVal)) (nameArg : PyVal) :
    (validate_template st t nameArg).2 =
      ⟨st.errors ++ (templateRun t (pyStrOf nameArg)).1,
       st.warnings ++ (templateRun t (pyStrOf nameArg)).2.1⟩ := by
  rcases hr : templateRun t (pyStrOf nameArg) with ⟨es, ws, tr⟩
  cases tr <;> simp [validate_template, hr]

/-- A `templateRun` that took the missing-field early return produced exactly
one error, the missing-field message for the first absent required field. -/
lemma templateRun_earlyFalse_shape (t : List (String × PyVal)) (n : String)
    (h : (templateRun t n).2.2 = TResult.earlyFalse) :
    ∃ f, required_fields.find? (fun f => (pyLookup t f).isNone) = some f ∧
      templateRun t n = ([missingMsg n f], [], TResult.earlyFalse) := by
  unfold templateRun at *
  split at h
  next f hf => exact ⟨f, hf, rfl⟩
  next =>
    split at h
    next nm =>
      split at h
      next sc =>
        split at h
        next =>
          split at h
          next => simp at h
          next => simp at h
        next => simp at h
      next h' => simp at h
    next => simp at h

/-- In an `ok` return of `validate_template`, the returned boolean is exactly
the emptiness of the whole session error list at the end of the call. -/
lemma validate_template_ok_val (st : VState) (t : List (String × PyVal)) (nameArg : PyVal)
    (b : Bool) (st' : VState)
    (h : validate_template st t nameArg = (Except.ok b, st')) :
    b = st'.errors.isEmpty := by
  rcases hr : templateRun t (pyStrOf nameArg) with ⟨es, ws, tr⟩
  cases tr with
  | raised e => simp [validate_template, hr] at h
  | earlyFalse =>
    obtain ⟨f, _, hshape⟩ := templateRun_earlyFalse_shape t (pyStrOf nameArg) (by rw [hr])
    rw [hr] at hshape
    obtain ⟨hes, hws, -⟩ := Prod.mk.injEq .. ▸ hshape
    simp [validate_template, hr] at h
    obtain ⟨hb, hst⟩ := h
    subst hb hes
    rw [← hst]
    simp
  | completed =>
    simp [validate_template, hr] at h
    obtain ⟨hb, hst⟩ := h
    rw [← hst, hb]

/-! ## Claim theorems -/

/-- Claim C1, counterexample: in a session whose Error list already holds an
entry from an earlier record, validating a fully well-formed record adds no
Error yet returns `false` — the return value is not independent of Errors
accumulated for earlier records. -/
theorem C1_counterexample :
    validate_template ⟨["prior"], []⟩ goodTemplate (PyVal.str "good-template") =
      (Except.ok false, ⟨["prior"], []⟩) := by
  rfl

/-- Claim C1, amended: `validate(record)` returns true iff the session's Error
list is empty at the end of the call.  The list accumulates across records of
one session, so Errors from earlier records force a `false` return even when
the current call adds none. -/
theorem C1_validate_true_iff_session_errors_empty (st : VState)
    (t : List (String × PyVal)) (nameArg : PyVal) (b : Bool) (st' : VState)
    (h : validate_template st t nameArg = (Except.ok b, st')) :
    b = true ↔ st'.errors = [] := by
  have hb := validate_template_ok_val st t nameArg b st' h
  subst hb
  cases hse : st'.errors <;> simp [hse]

/-- Witness for C1: the fresh-session call on a fully valid record returns
`true` with an empty final error list. -/
theorem C1_witness : true = true ↔ (⟨[], []⟩ : VState).errors = [] :=
  C1_validate_true_iff_session_errors_empty initState goodTemplate
    (PyVal.str "good-template") true ⟨[], []⟩ (by rfl)

/-- Claim C2, counterexample: the empty record is missing all eight required
fields, yet validation emits exactly one Error (naming only `name`) — not one
Error per missing field. -/
theorem C2_counterexample :
    validate_template initState [] (PyVal.str "t") =
      (Except.ok false, ⟨["t: Missing required field " ++ sq ++ "name" ++ sq], []⟩) ∧
    (required_fields.filter (fun f => (pyLookup [] f).isNone)).length = 8 := by
  exact ⟨by rfl, by rfl⟩

/-- Claim C2, amended: for a record missing required fields, validation emits
one Error naming only the first missing field (in the fixed field order),
leaves the Warning list untouched, and performs no further checks for the
record. -/
theorem C2_missing_field_single_error (st : VState) (t : List (String × PyVal))
    (nameArg : PyVal) (f : String)
    (h : required_fields.find? (fun f => (pyLookup t f).isNone) = some f) :
    validate_template st t nameArg =
      (Except.ok false, ⟨st.errors ++ [missingMsg (pyStrOf nameArg) f], st.warnings⟩) := by
  simp [validate_template, templateRun, h]

/-- Witness for C2: the empty record, whose first missing field is `name`. -/
theorem C2_witness :
    validate_template initState [] (PyVal.str "w") =
      (Except.ok false, ⟨["w: Missing required field " ++ sq ++ "name" ++ sq], []⟩) :=
  C2_missing_field_single_error initState [] (PyVal.str "w") "name" (by rfl)

/-- Claim C6: with an empty `templates` list (or the key absent altogether),
`validate_all` returns false, appends exactly one top-level Error, and appends
no Warnings. -/
theorem C6_empty_collection (st : VState) :
    validate_all_templates st [] =
      (Except.ok false,
       ⟨st.errors ++ ["No templates found in templates array"], st.warnings⟩) ∧
    validate_all_templates st [("templates", PyVal.list [])] =
      (Except.ok false,
       ⟨st.errors ++ ["No templates found in templates array"], st.warnings⟩) := by
  exact ⟨by rfl, by rfl⟩

/-- Claim C9: a validation session is a pure function of its input — no other
state feeds it — so two runs on the same unmodified input produce identical
ordered Error lists, identical ordered Warning lists and the same result. -/
theorem C9_deterministic (j : List (String × PyVal)) :
    (runSession j).2.errors = (runSession j).2.errors ∧
    (runSession j).2.warnings = (runSession j).2.warnings ∧
    (runSession j).1 = (runSession j).1 :=
  ⟨rfl, rfl, rfl⟩

/-- Claim C10: a dict record lacking a `name` key is still validated, under
the label `unknown`; its single finding is the missing-`name` Error labelled
`unknown`, and the loop continues with the remaining records. -/
theorem C10_unknown_name (st : VState) (av : Bool) (d : List (String × PyVal))
    (rest : List PyVal) (h : pyLookup d "name" = Option.none) :
    validateLoop st av (PyVal.dict d :: rest) =
      validateLoop
        ⟨st.errors ++ ["unknown: Missing required field " ++ sq ++ "name" ++ sq],
         st.warnings⟩ false rest := by
  have hfind : required_fields.find? (fun f => (pyLookup d f).isNone) = some "name" := by
    simp [required_fields, List.find?, h]
  have hvt : validate_template st d ((pyLookup d "name").getD (PyVal.str "unknown")) =
      (Except.ok false,
       ⟨st.errors ++ ["unknown: Missing required field " ++ sq ++ "name" ++ sq],
        st.warnings⟩) := by
    simp [validate_template, templateRun, hfind, h, missingMsg, pyStrOf]
  simp [validateLoop, hvt]

/-- Witness for C10: the empty dict record in a fresh session. -/
theorem C10_witness :
    validateLoop initState true [PyVal.dict []] =
      validateLoop
        ⟨["unknown: Missing required field " ++ sq ++ "name" ++ sq], []⟩ false [] :=
  C10_unknown_name initState true [] [] (by rfl)

/-- The scanning fold of `_check_hardcoded_secrets` appends exactly one error
per matching rule, in registry order. -/
lemma fold_secret (ps : List SecretRule) (acc : List String) (s : List Char) (n : String) :
    ps.foldl (fun es r => if reSearch r s then es ++ [secretMsg n r.label] else es) acc
      = acc ++ (ps.filter (fun r => reSearch r s)).map (fun r => secretMsg n r.label) := by
  induction ps generalizing acc with
  | nil => simp
  | cons r rest ih =>
    by_cases hr : reSearch r s <;>
      simp [List.foldl_cons, List.filter_cons, hr, ih, List.append_assoc]

/-- Claim C4: the secret scanner tests every registry pattern with no
short-circuit — its appended errors are exactly one per registry rule whose
pattern occurs somewhere in the script, in registry order, each labelled with
that rule's credential type — and the registry's rules carry pairwise distinct
labels, so distinct matching patterns give distinct errors; a script matching
no rule contributes no error. -/
theorem C4_secret_scanner (acc : List String) (s : List Char) (n : String) :
    check_hardcoded_secrets acc s n =
      acc ++ (secret_patterns.filter (fun r => reSearch r s)).map
        (fun r => secretMsg n r.label) ∧
    (secret_patterns.map (fun r => r.label)).Nodup :=
  ⟨fold_secret secret_patterns acc s n, by decide⟩

/-- Errors accumulate monotonically across one `validate_template` call. -/
lemma validate_template_errors_mono (st : VState) (t : List (String × PyVal))
    (nameArg : PyVal) :
    ∃ es, (validate_template st t nameArg).2.errors = st.errors ++ es :=
  ⟨(templateRun t (pyStrOf nameArg)).1, by rw [validate_template_state]⟩

/-- Loop invariant for `validate_all_templates`: on an `ok` return from a
non-empty batch, the accumulated flag equals the incoming flag AND-ed with the
emptiness of the final error list, and the error list only grew. -/
lemma validateLoop_ok (ts : List PyVal) : ∀ (st : VState) (av b : Bool) (st' : VState),
    validateLoop st av ts = (Except.ok b, st') →
    (∃ es, st'.errors = st.errors ++ es) ∧
      (ts ≠ [] → b = (av && st'.errors.isEmpty)) := by
  induction ts with
  | nil =>
    intro st av b st' h
    simp [validateLoop] at h
    obtain ⟨hb, hst⟩ := h
    exact ⟨⟨[], by simp [← hst]⟩, fun hne => absurd rfl hne⟩
  | cons x rest ih =>
    intro st av b st' h
    cases x with
    | dict d =>
      simp only [validateLoop] at h
      rcases hvt : validate_template st d ((pyLookup d "name").getD (PyVal.str "unknown"))
        with ⟨res, st1⟩
      rw [hvt] at h
      cases res with
      | error e => simp at h
      | ok bx =>
        simp only [] at h
        have hbx : bx = st1.errors.isEmpty :=
          validate_template_ok_val st d _ bx st1 hvt
        have hmono1 : ∃ es, st1.errors = st.errors ++ es := by
          obtain ⟨es, hes⟩ := validate_template_errors_mono st d
            ((pyLookup d "name").getD (PyVal.str "unknown"))
          exact ⟨es, by rw [← hes, hvt]⟩
        obtain ⟨⟨es2, hes2⟩, hres⟩ := ih st1 (av && bx) b st' h
        obtain ⟨es1, hes1⟩ := hmono1
        refine ⟨⟨es1 ++ es2, by rw [hes2, hes1, List.append_assoc]⟩, fun _ => ?_⟩
        cases rest with
        | nil =>
          simp [validateLoop] at h
          obtain ⟨hb, hst⟩ := h
          subst hst
          rw [← hb, hbx]
        | cons y r2 =>
          have hb2 := hres (by simp)
          cases he : st'.errors.isEmpty with
          | false =>
            rw [hb2, he]
            simp
          | true =>
            have hnil : st'.errors = [] := by
              cases hse : st'.errors with
              | nil => rfl
              | cons a l => rw [hse] at he; simp at he
            have h1nil : st1.errors = [] := by
              rw [hnil] at hes2
              exact (List.append_eq_nil.mp hes2.symm).1
            have : bx = true := by rw [hbx, h1nil]; rfl
            subst this
            rw [hb2]
            simp [he]
    | none => simp [validateLoop] at h
    | bool bb => simp [validateLoop] at h
    | int nn => simp [validateLoop] at h
    | str ss => simp [validateLoop] at h
    | list ll => simp [validateLoop] at h

/-- Claim C5: for a non-empty collection, `validate_all` returns true iff the
session error list is empty after every record has been processed, and
Warnings never influence the pass/fail value or the exit code computed by
`print_results`. -/
theorem C5_pass_iff_errors_empty (ts : List PyVal) (b : Bool) (st' : VState)
    (hne : ts ≠ [])
    (h : validate_all_templates initState [("templates", PyVal.list ts)] =
      (Except.ok b, st')) :
    (b = true ↔ st'.errors = []) ∧
    (∀ es ws ws', print_results_exit ⟨es, ws⟩ = print_results_exit ⟨es, ws'⟩) := by
  refine ⟨?_, fun es ws ws' => rfl⟩
  have htr : pyTruthy (PyVal.list ts) = true := by
    cases ts with
    | nil => exact absurd rfl hne
    | cons y r => rfl
  have hloop : validateLoop initState true ts = (Except.ok b, st') := by
    simpa [validate_all_templates, pyLookup, pyIter, htr] using h
  obtain ⟨-, hb⟩ := validateLoop_ok ts initState true b st' hloop
  have hb2 := hb hne
  rw [hb2]
  simp only [Bool.true_and]
  cases hse : st'.errors <;> simp [hse]

/-- Witness for C5: a one-record collection holding a fully valid record
passes with an empty error list. -/
theorem C5_witness :
    (true = true ↔ (⟨[], []⟩ : VState).errors = []) ∧
    (∀ es ws ws', print_results_exit ⟨es, ws⟩ = print_results_exit ⟨es, ws'⟩) :=
  C5_pass_iff_errors_empty [PyVal.dict goodTemplate] true ⟨[], []⟩
    (List.cons_ne_nil _ _) (by rfl)

/-! ## Claim C3: the GitHub cross-field rule -/

/-- A record whose `name` has the `github-` prefix and whose
`requiredSecrets` lacks `GITHUB_TOKEN`, but whose `setupScript` is not a
string. -/
def ghBadTemplate : List (String × PyVal) :=
  [("name", .str "github-x"),
   ("description", .str "d"),
   ("repoTypes", .list [.str "node"]),
   ("setupScript", .int 0),
   ("maintenanceScript", .str ""),
   ("requiredSecrets", .list []),
   ("environmentVariables", .dict []),
   ("instructions", .str "i")]

/-- The record of the spec's end-to-end example: well-formed except that the
`github-` name comes with an empty `requiredSecrets`. -/
def ghTokenMissing : List (String × PyVal) :=
  [("name", .str "github-ci"),
   ("description", .str "d"),
   ("repoTypes", .list [.str "node"]),
   ("setupScript", .str goodScript),
   ("maintenanceScript", .str ""),
   ("requiredSecrets", .list []),
   ("environmentVariables", .dict []),
   ("instructions", .str "do it")]

lemma count_zero_of_cases (l : List String) (n m g : String) (hmg : m ≠ g)
    (hl : l = [] ∨ l = [n ++ m]) : l.count (n ++ g) = 0 := by
  rcases hl with h | h <;> subst h
  · rfl
  · rw [List.count_eq_zero]
    intro hmem
    rw [List.mem_singleton] at hmem
    exact append_right_ne n hmg hmem.symm

lemma nameFormatErr_cases (nm : List Char) (n : String) :
    nameFormatErr nm n = [] ∨
      nameFormatErr nm n =
        [n ++ ": Invalid name format (use lowercase, numbers, hyphens only)"] := by
  unfold nameFormatErr
  split
  · exact Or.inl rfl
  · exact Or.inr rfl

lemma repoTypesErr_cases (v : PyVal) (n : String) :
    repoTypesErr v n = [] ∨
      repoTypesErr v n = [n ++ ": repoTypes must be a non-empty list"] := by
  unfold repoTypesErr
  cases v with
  | list l => by_cases hl : l.isEmpty <;> simp [hl]
  | none => exact Or.inr rfl
  | bool b => exact Or.inr rfl
  | int n2 => exact Or.inr rfl
  | str s => exact Or.inr rfl
  | dict d => exact Or.inr rfl

lemma setupScriptErr_cases (v : PyVal) (n : String) :
    setupScriptErr v n = [] ∨
      setupScriptErr v n = [n ++ ": setupScript must be a non-empty string"] := by
  unfold setupScriptErr
  cases v with
  | str s => by_cases hs : stripNonempty s.data <;> simp [hs]
  | none => exact Or.inr rfl
  | bool b => exact Or.inr rfl
  | int n2 => exact Or.inr rfl
  | list l => exact Or.inr rfl
  | dict d => exact Or.inr rfl

lemma maintenanceErr_cases (v : PyVal) (n : String) :
    maintenanceErr v n = [] ∨
      maintenanceErr v n = [n ++ ": maintenanceScript must be a string"] := by
  unfold maintenanceErr
  cases v <;> simp

lemma requiredSecretsErr_cases (v : PyVal) (n : String) :
    requiredSecretsErr v n = [] ∨
      requiredSecretsErr v n = [n ++ ": requiredSecrets must be a list"] := by
  unfold requiredSecretsErr
  cases v <;> simp

lemma envVarsErr_cases (v : PyVal) (n : String) :
    envVarsErr v n = [] ∨
      envVarsErr v n = [n ++ ": environmentVariables must be an object"] := by
  unfold envVarsErr
  cases v <;> simp

lemma instructionsErr_cases (v : PyVal) (n : String) :
    instructionsErr v n = [] ∨
      instructionsErr v n = [n ++ ": instructions must be a non-empty string"] := by
  unfold instructionsErr
  cases v with
  | str s => by_cases hs : stripNonempty s.data <;> simp [hs]
  | none => exact Or.inr rfl
  | bool b => exact Or.inr rfl
  | int n2 => exact Or.inr rfl
  | list l => exact Or.inr rfl
  | dict d => exact Or.inr rfl

/-- The secret scan never produces the GitHub-rule message. -/
lemma count_gh_secret_zero (s : List Char) (n : String) :
    (check_hardcoded_secrets [] s n).count (ghMsg n) = 0 := by
  unfold check_hardcoded_secrets
  rw [fold_secret, List.nil_append, List.count_eq_zero]
  intro hmem
  rw [List.mem_map] at hmem
  obtain ⟨r, hr, heq⟩ := hmem
  have hr5 := (List.mem_filter.mp hr).1
  have hg : secretMsg n r.label ≠ ghMsg n := by
    simp only [secret_patterns, List.mem_cons, List.not_mem_nil, or_false] at hr5
    rcases hr5 with rfl | rfl | rfl | rfl | rfl
    all_goals exact append_right_ne n (by decide)
  exact hg heq

/-- Claim C3, counterexample: a record with a `github-` name and a
`GITHUB_TOKEN`-less `requiredSecrets` whose `setupScript` is the integer 0:
the call raises (an `AttributeError` from `startswith`) before the GitHub
rule runs, and no GitHub-rule Error is added — so the rule does not fire
regardless of the types of the other fields. -/
theorem C3_counterexample :
    validate_template initState ghBadTemplate (PyVal.str "github-x") =
      (Except.error PyErr.attributeError,
       ⟨["github-x: setupScript must be a non-empty string"], []⟩) ∧
    ghMsg "github-x" ∉
      (validate_template initState ghBadTemplate (PyVal.str "github-x")).2.errors := by
  exact ⟨by rfl, by decide⟩

/-- Claim C3, amended: for a record with all required fields present, a string
`name` starting with `github-`, a *string* `setupScript`, and a
`requiredSecrets` that supports membership and lacks `GITHUB_TOKEN`, the call
completes normally and adds exactly one Error referencing the GitHub rule,
regardless of the validity of the remaining fields. -/
theorem C3_github_rule (st : VState) (t : List (String × PyVal)) (nameArg : PyVal)
    (nm sc : String)
    (hpres : required_fields.find? (fun f => (pyLookup t f).isNone) = Option.none)
    (hname : pyLookup t "name" = some (PyVal.str nm))
    (hgh : "github-".data.isPrefixOf nm.data = true)
    (hsetup : pyLookup t "setupScript" = some (PyVal.str sc))
    (hmem : pyContainsStr ((pyLookup t "requiredSecrets").getD PyVal.none) "GITHUB_TOKEN"
      = Except.ok false) :
    (validate_template st t nameArg).2.errors.count (ghMsg (pyStrOf nameArg)) =
      st.errors.count (ghMsg (pyStrOf nameArg)) + 1 ∧
    ∃ b, (validate_template st t nameArg).1 = Except.ok b := by
  set n := pyStrOf nameArg with hn
  have hstate := validate_template_state st t nameArg
  constructor
  · rw [hstate]
    simp only [List.count_append]
    have z1 : (nameFormatErr nm.data n).count (ghMsg n) = 0 :=
      count_zero_of_cases _ n _ ": GitHub templates must require GITHUB_TOKEN secret"
        (by decide) (nameFormatErr_cases nm.data n)
    have z2 : (repoTypesErr ((pyLookup t "repoTypes").getD PyVal.none) n).count (ghMsg n) = 0 :=
      count_zero_of_cases _ n _ ": GitHub templates must require GITHUB_TOKEN secret"
        (by decide) (repoTypesErr_cases _ n)
    have z3 : (setupScriptErr (PyVal.str sc) n).count (ghMsg n) = 0 :=
      count_zero_of_cases _ n _ ": GitHub templates must require GITHUB_TOKEN secret"
        (by decide) (setupScriptErr_cases _ n)
    have z4 : (maintenanceErr ((pyLookup t "maintenanceScript").getD PyVal.none) n).count (ghMsg n) = 0 :=
      count_zero_of_cases _ n _ ": GitHub templates must require GITHUB_TOKEN secret"
        (by decide) (maintenanceErr_cases _ n)
    have z5 : (requiredSecretsErr ((pyLookup t "requiredSecrets").getD PyVal.none) n).count (ghMsg n) = 0 :=
      count_zero_of_cases _ n _ ": GitHub templates must require GITHUB_TOKEN secret"
        (by decide) (requiredSecretsErr_cases _ n)
    have z6 : (envVarsErr ((pyLookup t "environmentVariables").getD PyVal.none) n).count (ghMsg n) = 0 :=
      count_zero_of_cases _ n _ ": GitHub templates must require GITHUB_TOKEN secret"
        (by decide) (envVarsErr_cases _ n)
    have z7 := count_gh_secret_zero sc.data n
    have z8 : (instructionsErr ((pyLookup t "instructions").getD PyVal.none) n).count (ghMsg n) = 0 :=
      count_zero_of_cases _ n _ ": GitHub templates must require GITHUB_TOKEN secret"
        (by decide) (instructionsErr_cases _ n)
    simp only [templateRun, hpres, hname, hsetup, Option.getD_some, hgh, hmem,
      List.count_append]
    simp [← hn, z1, z2, z3, z4, z5, z6, z7, z8, List.count_cons]
  · have htrc : (templateRun t n).2.2 = TResult.completed := by
      simp [templateRun, hpres, hname, hsetup, hgh, hmem]
    rcases hr : templateRun t n with ⟨es, ws, tr⟩
    rw [hr] at htrc
    simp at htrc
    subst htrc
    refine ⟨(st.errors ++ es).isEmpty, ?_⟩
    rw [hn] at hr
    simp [validate_template, hr]

/-- Witness for C3: the spec's `github-ci` example record. -/
theorem C3_witness :
    (validate_template initState ghTokenMissing (PyVal.str "github-ci")).2.errors.count
        (ghMsg (pyStrOf (PyVal.str "github-ci"))) =
      initState.errors.count (ghMsg (pyStrOf (PyVal.str "github-ci"))) + 1 ∧
    ∃ b, (validate_template initState ghTokenMissing (PyVal.str "github-ci")).1 =
      Except.ok b :=
  C3_github_rule initState ghTokenMissing (PyVal.str "github-ci") "github-ci" goodScript
    (by rfl) (by rfl) (by rfl) (by rfl) (by rfl)

/-! ## Claim C7: exception behaviour on loosely typed records -/

def isErr : Except PyErr Bool → Bool
  | .error _ => true
  | .ok _ => false

def isRaisedT : TResult → Bool
  | .raised _ => true
  | _ => false

/-- The exact condition under which one `validate_template` call raises: all
required fields are present, and `name` is not a string, or `setupScript` is
not a string, or the name has the `github-` prefix while `requiredSecrets`
supports no membership test. -/
def wouldRaise (t : List (String × PyVal)) : Bool :=
  match required_fields.find? (fun f => (pyLookup t f).isNone) with
  | some _ => false
  | Option.none =>
    match (pyLookup t "name").getD PyVal.none with
    | .str nm =>
      match (pyLookup t "setupScript").getD PyVal.none with
      | .str _ =>
        if "github-".data.isPrefixOf nm.data then
          match pyContainsStr ((pyLookup t "requiredSecrets").getD PyVal.none)
              "GITHUB_TOKEN" with
          | .error _ => true
          | .ok _ => false
        else false
      | _ => true
    | _ => true

lemma templateRun_raises (t : List (String × PyVal)) (n : String) :
    isRaisedT (templateRun t n).2.2 = wouldRaise t := by
  unfold templateRun wouldRaise
  cases hf : required_fields.find? (fun f => (pyLookup t f).isNone) with
  | some f => rfl
  | none =>
    cases hnm : (pyLookup t "name").getD PyVal.none with
    | str nm =>
      cases hsc : (pyLookup t "setupScript").getD PyVal.none with
      | str sc =>
        by_cases hg : "github-".data.isPrefixOf nm.data = true
        · cases hm : pyContainsStr ((pyLookup t "requiredSecrets").getD PyVal.none)
              "GITHUB_TOKEN" with
          | error e => simp [hg, hm, isRaisedT]
          | ok mem => simp [hg, hm, isRaisedT]
        · simp [hg, isRaisedT]
      | none => rfl
      | bool b => rfl
      | int n2 => rfl
      | list l => rfl
      | dict d => rfl
    | none => rfl
    | bool b => rfl
    | int n2 => rfl
    | list l => rfl
    | dict d => rfl

/-- Claim C7, counterexample: a record with every required field present but
an integer `name`: `re.match` raises a `TypeError`, so validation does not
terminate normally by collecting findings. -/
def intNameTemplate : List (String × PyVal) :=
  [("name", .int 7),
   ("description", .str "d"),
   ("repoTypes", .list [.str "node"]),
   ("setupScript", .str "echo"),
   ("maintenanceScript", .str ""),
   ("requiredSecrets", .list []),
   ("environmentVariables", .dict []),
   ("instructions", .str "i")]

theorem C7_counterexample :
    (validate_template initState intNameTemplate (PyVal.str "t")).1 =
      Except.error PyErr.typeError := by
  rfl

/-- Claim C7, amended: a `validate_template` call raises exactly under
`wouldRaise`: when all required fields are present and `name` is not a
string, or `setupScript` is not a string, or a `github-`-named record has a
`requiredSecrets` supporting no membership test.  In every other case —
including every record missing a required field — the call terminates
normally, collecting findings. -/
theorem C7_raise_characterization (st : VState) (t : List (String × PyVal))
    (nameArg : PyVal) :
    isErr (validate_template st t nameArg).1 = wouldRaise t := by
  have hch := templateRun_raises t (pyStrOf nameArg)
  rcases hr : templateRun t (pyStrOf nameArg) with ⟨es, ws, tr⟩
  rw [hr] at hch
  cases tr with
  | raised e =>
    simp only [isRaisedT] at hch
    simp [validate_template, hr, isErr, ← hch]
  | earlyFalse =>
    simp only [isRaisedT] at hch
    simp [validate_template, hr, isErr, ← hch]
  | completed =>
    simp only [isRaisedT] at hch
    simp [validate_template, hr, isErr, ← hch]

/-! ## Claim C8: the unquoted-variable heuristic -/

/-- Shape of every group the scan can capture: a dollar sign followed by a
non-empty run of upper-case letters or underscores. -/
def groupShape : List Char → Bool
  | c :: body => c = '$' && !body.isEmpty && body.all upperOrUnderscore
  | [] => false

lemma takeWhile_all (p : Char → Bool) (t : List Char) :
    (t.takeWhile p).all p = true := by
  rw [List.all_eq_true]
  intro a ha
  exact List.mem_takeWhile_imp ha

lemma dropLast_all (p : Char → Bool) (l : List Char) (h : l.all p = true) :
    l.dropLast.all p = true := by
  rw [List.all_eq_true] at h ⊢
  intro a ha
  exact h a (List.dropLast_subset l ha)

lemma isEmpty_false_of_len (l : List Char) (h : 1 ≤ l.length) : l.isEmpty = false := by
  cases l with
  | nil => simp at h
  | cons a t => rfl

lemma groupShape_full (t : List Char)
    (hbody : ¬(t.takeWhile upperOrUnderscore).isEmpty = true) :
    groupShape ('$' :: t.takeWhile upperOrUnderscore) = true := by
  have hb : (t.takeWhile upperOrUnderscore).isEmpty = false := by
    cases hi : (t.takeWhile upperOrUnderscore).isEmpty with
    | false => rfl
    | true => exact absurd hi hbody
  simp [groupShape, takeWhile_all, hb]

lemma groupShape_trunc (t : List Char)
    (hlen : (t.takeWhile upperOrUnderscore).length ≥ 2) :
    groupShape ('$' :: (t.takeWhile upperOrUnderscore).dropLast) = true := by
  have hl : 1 ≤ (t.takeWhile upperOrUnderscore).dropLast.length := by
    rw [List.length_dropLast]
    omega
  simp [groupShape, dropLast_all _ _ (takeWhile_all upperOrUnderscore t),
    isEmpty_false_of_len _ hl]

lemma matchFrom_shape (l g rem : List Char) (h : matchFrom l = some (g, rem)) :
    groupShape g = true := by
  unfold matchFrom at h
  split at h
  next c0 c1 t =>
    split at h
    · simp at h
    · split at h
      · split at h
        next hbody => simp at h
        next hbody =>
          split at h
          next c2 rest =>
            split at h
            · obtain ⟨hg, -⟩ := Prod.mk.injEq .. ▸ Option.some.inj h
              subst hg
              exact groupShape_full t hbody
            · split at h
              next hlen =>
                obtain ⟨hg, -⟩ := Prod.mk.injEq .. ▸ Option.some.inj h
                subst hg
                exact groupShape_trunc t hlen
              next => simp at h
          next =>
            split at h
            next hlen =>
              obtain ⟨hg, -⟩ := Prod.mk.injEq .. ▸ Option.some.inj h
              subst hg
              exact groupShape_trunc t hlen
            next => simp at h
      · simp at h
  next => simp at h

lemma findallAux_shape (fuel : Nat) : ∀ l : List Char,
    (findallAux fuel l).all groupShape = true := by
  induction fuel with
  | zero =>
    intro l
    cases l <;> rfl
  | succ fuel ih =>
    intro l
    cases l with
    | nil => rfl
    | cons c rest =>
      cases hm : matchFrom (c :: rest) with
      | none => simpa [findallAux, hm] using ih rest
      | some pr =>
        rcases pr with ⟨g, rem⟩
        simp only [findallAux, hm, List.all_cons, Bool.and_eq_true]
        exact ⟨matchFrom_shape _ _ _ hm, ih rem⟩

/-- Modelled from the claim's own criterion, for comparison with the
source-derived scanner: the positions `i` in the text where a variable
reference `$NAME` (a dollar sign followed by a non-empty run of upper-case
letters or underscores) starts and is NOT immediately enclosed by
double-quote characters on both sides. -/
def spec_unquoted_positions (s : List Char) : List Nat :=
  (List.range s.length).filter (fun i =>
    (s.get? i == some '$') &&
    !((s.drop (i+1)).takeWhile upperOrUnderscore).isEmpty &&
    !((decide (1 ≤ i) && (s.get? (i-1) == some '"')) &&
      (s.get? (i + 1 + ((s.drop (i+1)).takeWhile upperOrUnderscore).length)
        == some '"')))

def cexScript : List Char := ['"', '$', 'V', 'A', 'R', ' ', 'x']

/-- Every successful single attempt of the regex has a non-quote character
immediately before the `$`, and captures either the full name — when the
character right after it exists and is not a double quote — or, only when the
name has at least two characters, the name without its last character (which
is consumed as the trailing `[^\x22]`). -/
lemma matchFrom_guard (c0 c1 : Char) (t g rem : List Char)
    (h : matchFrom (c0 :: c1 :: t) = some (g, rem)) :
    c0 ≠ '"' ∧ c1 = '$' ∧
      ((∃ c2 rest, t.drop (t.takeWhile upperOrUnderscore).length = c2 :: rest ∧
          c2 ≠ '"' ∧ g = '$' :: t.takeWhile upperOrUnderscore) ∨
        (2 ≤ (t.takeWhile upperOrUnderscore).length ∧
          g = '$' :: (t.takeWhile upperOrUnderscore).dropLast)) := by
  unfold matchFrom at h
  dsimp only at h
  by_cases h0 : c0 = '"'
  · rw [if_pos h0] at h
    simp at h
  · rw [if_neg h0] at h
    by_cases h1 : c1 = '$'
    · rw [if_pos h1] at h
      refine ⟨h0, h1, ?_⟩
      split at h
      · simp at h
      · split at h
        next c2 rest heq =>
          split at h
          next hc2 =>
            obtain ⟨hg, -⟩ := Prod.mk.injEq .. ▸ Option.some.inj h
            exact Or.inl ⟨c2, rest, heq, hc2, hg.symm⟩
          next hc2 =>
            split at h
            next hlen =>
              obtain ⟨hg, -⟩ := Prod.mk.injEq .. ▸ Option.some.inj h
              exact Or.inr ⟨hlen, hg.symm⟩
            next => simp at h
        next heq =>
          split at h
          next hlen =>
            obtain ⟨hg, -⟩ := Prod.mk.injEq .. ▸ Option.some.inj h
            exact Or.inr ⟨hlen, hg.symm⟩
          next => simp at h
    · rw [if_neg h1] at h
      simp at h

/-- Claim C8, counterexample: in `"$VAR x` the reference `$VAR` at position 1
is not enclosed by quotes on both sides (a quote precedes it but a space
follows), so the claim requires it be flagged — yet the scan finds nothing and
no warning is emitted, because the regex demands a non-quote character before
the `$`.  A `$` that starts the text is likewise never flagged, and a
single-character name at the end of the text or right before a double quote is
not flagged; a name of two or more characters in those places is flagged with
its last character truncated (`x $ABC` reports `$AB`, `x$VAR"` reports `$VA`).
Finally, in `a$X b$X c` the scan reports the same reference twice and the
warning keeps both copies: the first 3 matches are collected, not the first 3
distinct ones. -/
theorem C8_counterexample :
    spec_unquoted_positions cexScript = [1] ∧
    findallUnquoted cexScript = [] ∧
    unquotedWarn cexScript "t" "setupScript" = [] ∧
    findallUnquoted ("$VAR x").data = [] ∧
    findallUnquoted ("x$A").data = [] ∧
    findallUnquoted ("a$A\" x").data = [] ∧
    findallUnquoted ("x $ABC").data = [['$', 'A', 'B']] ∧
    findallUnquoted ("x$VAR\"").data = [['$', 'V', 'A']] ∧
    findallUnquoted ("a$X b$X c").data = [['$', 'X'], ['$', 'X']] ∧
    unquotedWarn ("a$X b$X c").data "t" "setupScript" =
      ["t: setupScript has unquoted variables: [" ++ sq ++ "$X" ++ sq ++ ", " ++
        sq ++ "$X" ++ sq ++ "]"] := by
  exact ⟨by rfl, by rfl, by rfl, by rfl, by rfl, by rfl, by rfl, by rfl, by rfl,
    by rfl⟩

/-- Claim C8, amended: the flagged references are the group captures of the
left-to-right non-overlapping scan of the regex `[^\x22](\$[A-Z_]+)[^\x22]`
with greedy backtracking: every match has a character other than a double
quote immediately before the `$` and a character other than a double quote
after the captured name; the capture is the full name when a non-quote
character follows it, and otherwise — only when the name has at least two
characters — the name loses its last character, which fills the trailing
position instead (so such a reference is reported truncated).  Every capture
is a `$` followed by a non-empty run of `[A-Z_]`.  The checker collects the
first 3 captures (not necessarily distinct) into a single combined Warning,
and emits no warning when there are none. -/
theorem C8_unquoted_warning (s : List Char) (n stype : String) :
    unquotedWarn s n stype =
      (if (findallUnquoted s).isEmpty then []
       else [n ++ ": " ++ stype ++ " has unquoted variables: " ++
         reprStrList ((findallUnquoted s).take 3)]) ∧
    (findallUnquoted s).all groupShape = true ∧
    (∀ (c0 c1 : Char) (t g rem : List Char),
      matchFrom (c0 :: c1 :: t) = some (g, rem) →
      c0 ≠ '"' ∧ c1 = '$' ∧
        ((∃ c2 rest, t.drop (t.takeWhile upperOrUnderscore).length = c2 :: rest ∧
            c2 ≠ '"' ∧ g = '$' :: t.takeWhile upperOrUnderscore) ∨
          (2 ≤ (t.takeWhile upperOrUnderscore).length ∧
            g = '$' :: (t.takeWhile upperOrUnderscore).dropLast))) := by
  refine ⟨?_, findallAux_shape s.length s,
    fun c0 c1 t g rem h => matchFrom_guard c0 c1 t g rem h⟩
  unfold unquotedWarn
  cases hf : findallUnquoted s with
  | nil => rfl
  | cons a l => rfl

/-- Witness for C8: the scan equations at a concrete script. -/
theorem C8_witness :
    unquotedWarn ("echo $HOME x").data "t" "setupScript" =
      (if (findallUnquoted ("echo $HOME x").data).isEmpty then []
       else ["t" ++ ": " ++ "setupScript" ++ " has unquoted variables: " ++
         reprStrList ((findallUnquoted ("echo $HOME x").data).take 3)]) ∧
    (findallUnquoted ("echo $HOME x").data).all groupShape = true ∧
    (∀ (c0 c1 : Char) (t g rem : List Char),
      matchFrom (c0 :: c1 :: t) = some (g, rem) →
      c0 ≠ '"' ∧ c1 = '$' ∧
        ((∃ c2 rest, t.drop (t.takeWhile upperOrUnderscore).length = c2 :: rest ∧
            c2 ≠ '"' ∧ g = '$' :: t.takeWhile upperOrUnderscore) ∨
          (2 ≤ (t.takeWhile upperOrUnderscore).length ∧
            g = '$' :: (t.takeWhile upperOrUnderscore).dropLast))) :=
  C8_unquoted_warning ("echo $HOME x").data "t" "setupScript"

end ValidateTemplates
